import Mathlib

/-!
Verification development for the 10x barcode-aware paired-end aligner front
end (`SNAPLib/TenXAligner.cpp`): option parsing (`TenXAlignerOptions::parse`),
and the worker thread `TenXAlignerContext::runIterationThread` — its no-index
fast path, read buffering, staged-alignment retry loops, and result emission.
The shallow embedding below translates those routines into executable Lean
functions; pointer arithmetic on the `nSecondaryResults` array is made
explicit via an offset, and the two staged-alignment calls
(`align_second_stage`, `align_third_stage`), which live in a different
translation unit, are abstracted as function parameters.
-/

/-- Alignment status of one read (the `AlignmentResult` enum).  `NotFound` is
the zero value of the C++ enum, which is what `memset(&result, 0, ...)`
produces. -/
inductive AlignmentResult where
  | NotFound
  | SingleHit
  | MultipleHits
deriving DecidableEq, Repr

/-- Modelled from the spec: `isOneLocation(s)` is true iff s = SingleHit
(the helper is declared outside this translation unit). -/
def isOneLocation : AlignmentResult → Bool
  | .SingleHit => true
  | _ => false

/-- A genome location: a 64-bit offset into the concatenated reference, or
the `InvalidGenomeLocation` sentinel denoting no placement. -/
inductive GenomeLocation where
  | loc (offset : Nat)
  | invalid
deriving DecidableEq, Repr

/-- The sentinel assigned by the worker for unmapped results. -/
def InvalidGenomeLocation : GenomeLocation := .invalid

/-- The parts of a `Read` the worker inspects: identifier, data length and
count of N bases. -/
structure Read where
  id : String
  dataLength : Nat
  countOfNs : Nat
deriving DecidableEq, Repr

/-- The characters of an ID before the first `/`. -/
def stemChars : List Char → List Char
  | [] => []
  | c :: cs => if c = '/' then [] else c :: stemChars cs

/-- Modelled from the spec: the read-ID matching used by `readIdsMatch` /
`Read::checkIdMatch` (declared outside this translation unit); two IDs form
a pair when they share a stem, as in `foo/1` and `foo/2`. -/
def readIdStem (r : Read) : String :=
  String.mk (stemChars r.id.data)

/-- Modelled from the spec: IDs match iff the stems before `/` agree. -/
def readIdsMatch (r0 r1 : Read) : Bool :=
  readIdStem r0 == readIdStem r1

/-- The fields of a `PairedAlignmentResult` that the worker writes or reads:
per-mate status, location and clipping adjustment. -/
structure PairedAlignmentResult where
  status0 : AlignmentResult
  status1 : AlignmentResult
  location0 : GenomeLocation
  location1 : GenomeLocation
  clippingForReadAdjustment0 : Int
  clippingForReadAdjustment1 : Int
deriving DecidableEq, Repr

/-- The fields of a `SingleAlignmentResult` used by the emission filter. -/
structure SingleAlignmentResult where
  status : AlignmentResult
deriving DecidableEq, Repr

/-- The options of `TenXAlignerOptions` (plus the single filter-flag bit the
10x code manipulates, `FilterBothMatesMatch`). -/
structure TenXAlignerOptions where
  minSpacing : Int
  maxSpacing : Int
  maxBarcodeSize : Int
  minPairsPerCluster : Int
  maxClusterSpan : Int
  forceSpacing : Bool
  intersectingAlignerMaxHits : Int
  maxCandidatePoolSize : Int
  quicklyDropUnpairedReads : Bool
  filterBothMatesMatch : Bool
deriving DecidableEq, Repr

/-- Default values from the `TenXAlignerOptions` constructor (the
`DEFAULT_*` constants at the top of the file); the `FilterBothMatesMatch`
bit starts clear (modelled from the spec: `filterFlags.matchBoth` defaults
to false).  `DEFAULT_INTERSECTING_ALIGNER_MAX_HITS` and
`DEFAULT_MAX_CANDIDATE_POOL_SIZE` come from another translation unit; the
spec leaves them "(default)", and no claim depends on their values. -/
def defaultTenXAlignerOptions : TenXAlignerOptions where
  minSpacing := 50
  maxSpacing := 1000
  maxBarcodeSize := 60000
  minPairsPerCluster := 10
  maxClusterSpan := 100000
  forceSpacing := false
  intersectingAlignerMaxHits := 250
  maxCandidatePoolSize := 1048576
  quicklyDropUnpairedReads := true
  filterBothMatesMatch := false

/-- Accumulate a leading run of decimal digits. -/
def atoiLoop : List Char → Nat → Nat
  | [], acc => acc
  | c :: cs, acc => if c.isDigit then atoiLoop cs (acc * 10 + (c.toNat - 48)) else acc

/-- `atoi` on the argument strings (sufficient for the numeric literals
exercised here): an optional leading minus sign and a run of digits. -/
def atoi (s : String) : Int :=
  match s.data with
  | '-' :: cs => -(atoiLoop cs 0 : Int)
  | cs => (atoiLoop cs 0 : Int)

/-- `TenXAlignerOptions::parse` driven over the whole argument list, as the
option loop does: each recognized option updates the options and advances
past its arguments; an option with missing arguments makes `parse` return
false (modelled as `none`); anything unrecognized falls through to
`AlignerOptions::parse` (modelled from the spec: the base parser handles
the remaining options and never touches the 10x fields nor the
`FilterBothMatesMatch` bit, which "applies only when explicitly
selected"). -/
def parseTenXOptions (opts : TenXAlignerOptions) : List String → Option TenXAlignerOptions
  | [] => some opts
  | "-s" :: a :: b :: rest =>
      parseTenXOptions { opts with minSpacing := atoi a, maxSpacing := atoi b } rest
  | "-H" :: a :: rest =>
      parseTenXOptions { opts with intersectingAlignerMaxHits := atoi a } rest
  | "-fs" :: rest =>
      parseTenXOptions { opts with forceSpacing := true } rest
  | "-ku" :: rest =>
      parseTenXOptions { opts with quicklyDropUnpairedReads := false } rest
  | "-mcp" :: a :: rest =>
      parseTenXOptions { opts with maxCandidatePoolSize := atoi a } rest
  | "-F" :: "b" :: rest =>
      parseTenXOptions { opts with filterBothMatesMatch := true } rest
  | "-maxBar" :: a :: rest =>
      parseTenXOptions { opts with maxBarcodeSize := atoi a } rest
  | "-minCluster" :: a :: rest =>
      parseTenXOptions { opts with minPairsPerCluster := atoi a } rest
  | "-maxClusterSpan" :: a :: rest =>
      -- NB: the source sets minPairsPerCluster here, not maxClusterSpan.
      parseTenXOptions { opts with minPairsPerCluster := atoi a } rest
  | ["-s"] => none
  | ["-s", _] => none
  | ["-H"] => none
  | ["-mcp"] => none
  | ["-maxBar"] => none
  | ["-minCluster"] => none
  | ["-maxClusterSpan"] => none
  | _ :: rest => parseTenXOptions opts rest

/-- Whether an argument list contains the adjacent tokens `-F` `b`. -/
def containsDashFb : List String → Bool
  | [] => false
  | x :: rest => (x == "-F" && rest.head? == some "b") || containsDashFb rest

/-- The signature of `AlignerOptions::passFilter` (a collaborator outside
this translation unit): read, status, a degraded/useful flag, and the
is-secondary bit. -/
abbrev PassFilter := Read → AlignmentResult → Bool → Bool → Bool

/-- The combination of the two per-mate filter outcomes, as written at the
three call sites:
`(options->filterFlags & AlignerOptions::FilterBothMatesMatch) ? (pass0 && pass1) : (pass0 || pass1)`. -/
def combinedPass (filterBothMatesMatch pass0 pass1 : Bool) : Bool :=
  if filterBothMatesMatch then pass0 && pass1 else pass0 || pass1

/-- The spec's filter policy, stated from its words: `MatchBoth` means both
mates must satisfy the predicate, `MatchEither` (the default) means at
least one must. -/
def specFilterPolicyHolds (matchBoth pass0 pass1 : Bool) : Prop :=
  if matchBoth then (pass0 = true ∧ pass1 = true) else (pass0 = true ∨ pass1 = true)

instance (b p0 p1 : Bool) : Decidable (specFilterPolicyHolds b p0 p1) := by
  unfold specFilterPolicyHolds; split <;> infer_instance

/-- The usefulness test applied to a read, repeated verbatim at lines
420-421 and 622-623 of the source:
`read->getDataLength() >= minReadLength && (int)read->countOfNs() <= maxDist`. -/
def readIsUseful (minReadLength maxDist : Int) (r : Read) : Bool :=
  decide (minReadLength ≤ (r.dataLength : Int)) && decide ((r.countOfNs : Int) ≤ maxDist)

/-- The statistics fields the embedded code paths touch. -/
structure AlignStats where
  totalReads : Nat
  uselessReads : Nat
  filtered : Nat
  notFound : Nat
  extraAlignments : Nat
deriving DecidableEq, Repr

def initialStats : AlignStats where
  totalReads := 0
  uselessReads := 0
  filtered := 0
  notFound := 0
  extraAlignments := 0

/-- One call to `ReadWriter::writePairs(readerContext, reads, results,
nResults, singleResults, nSingleResults, firstIsPrimary)`: the two reads
pointed to, the paired records handed over, the counts and the
`firstIsPrimary` flag. -/
structure WriteCall where
  read0 : Read
  read1 : Read
  records : List PairedAlignmentResult
  nResults : Int
  singles0 : List SingleAlignmentResult
  singles1 : List SingleAlignmentResult
  nSingle0 : Int
  nSingle1 : Int
  firstIsPrimary : Bool
deriving DecidableEq, Repr

/-- The unmapped result of the no-index fast path (lines 403-405): the
record is `memset` to zero — statuses `NotFound` (the zero enum value),
clipping 0 — and both locations are then set to `InvalidGenomeLocation`. -/
def unmappedResultNoIndex : PairedAlignmentResult where
  status0 := .NotFound
  status1 := .NotFound
  location0 := InvalidGenomeLocation
  location1 := InvalidGenomeLocation
  clippingForReadAdjustment0 := 0
  clippingForReadAdjustment1 := 0

/-- The write issued by the no-index fast path (line 428):
`writePairs(readerContext, reads, &result, 1, NULL, nSingleResults, true)`
with `nSingleResults = {0, 0}`. -/
def noIndexUnmappedWrite (r0 r1 : Read) : WriteCall where
  read0 := r0
  read1 := r1
  records := [unmappedResultNoIndex]
  nResults := 1
  singles0 := []
  singles1 := []
  nSingle0 := 0
  nSingle1 := 0
  firstIsPrimary := true

/-- The unmapped result built by the degenerate both-mates-unuseful path
(lines 625-631): statuses `NotFound`, locations `InvalidGenomeLocation`,
clipping 0. -/
def unmappedResultDegenerate : PairedAlignmentResult where
  status0 := .NotFound
  status1 := .NotFound
  location0 := InvalidGenomeLocation
  location1 := InvalidGenomeLocation
  clippingForReadAdjustment0 := 0
  clippingForReadAdjustment1 := 0

/-- The write issued by the degenerate path (line 640); note it passes the
base `reads` pointer, i.e. buffer slots 0 and 1. -/
def degenerateUnmappedWrite (r0 r1 : Read) : WriteCall where
  read0 := r0
  read1 := r1
  records := [unmappedResultDegenerate]
  nResults := 1
  singles0 := []
  singles1 := []
  nSingle0 := 0
  nSingle1 := 0
  firstIsPrimary := true

/-- Accumulated observable state of the no-index fast path. -/
structure NoIndexState where
  stats : AlignStats
  writes : List WriteCall

/-- Outcome of a worker loop: `soft_exit(code)` after an error message
naming the two read IDs, or normal completion. -/
inductive NoIndexOutcome where
  | exited (code : Nat) (id0 id1 : String)
  | finished (st : NoIndexState)

/-- The no-index fast path (lines 398-437): for each incoming pair, check
the IDs (exiting with code 1 on a mismatch unless `ignoreMismatchedIDs`),
then run the filter on the zeroed `NotFound` result with the usefulness
expression as the third `passFilter` argument, and either write the single
unmapped record or count the pair in `uselessReads`. -/
def noIndexLoop (opts : TenXAlignerOptions) (pf : PassFilter)
    (ignoreMismatchedIDs : Bool) (minReadLength maxDist : Int)
    (hasReadWriter : Bool) :
    List (Read × Read) → NoIndexState → NoIndexOutcome
  | [], st => .finished st
  | (r0, r1) :: rest, st =>
    if !ignoreMismatchedIDs && !readIdsMatch r0 r1 then
      .exited 1 r0.id r1.id
    else
      let stats := { st.stats with totalReads := st.stats.totalReads + 2 }
      let pass0 := pf r0 .NotFound (readIsUseful minReadLength maxDist r0) false
      let pass1 := pf r1 .NotFound (readIsUseful minReadLength maxDist r1) false
      let pass := combinedPass opts.filterBothMatesMatch pass0 pass1
      if pass then
        let writes :=
          if hasReadWriter then st.writes ++ [noIndexUnmappedWrite r0 r1] else st.writes
        noIndexLoop opts pf ignoreMismatchedIDs minReadLength maxDist hasReadWriter rest
          { stats := { stats with notFound := stats.notFound + 1 }, writes := writes }
      else
        noIndexLoop opts pf ignoreMismatchedIDs minReadLength maxDist hasReadWriter rest
          { stats := { stats with uselessReads := stats.uselessReads + 1 }, writes := st.writes }

/-- State of the read-buffering loop (lines 609-652): the `reads` slot
array, the parallel `useful0`/`useful1` arrays, the admitted-pair count,
statistics, the writes issued on the degenerate path, and whether the
`_ASSERT(totalPairsForBarcode <= maxBarcodeSize)` at line 650 was
violated. -/
structure BufferState where
  readsBuf : Nat → Read
  useful0 : Nat → Bool
  useful1 : Nat → Bool
  totalPairsForBarcode : Nat
  stats : AlignStats
  writes : List WriteCall
  assertFailed : Bool

/-- Outcome of the buffering loop. -/
inductive BufferOutcome where
  | exited (code : Nat) (id0 id1 : String)
  | finished (st : BufferState)

/-- Initial buffering state; `junk` stands for the uninitialized contents
of the freshly `BigAlloc`ed arrays. -/
def initialBufferState (junk : Read) : BufferState where
  readsBuf := fun _ => junk
  useful0 := fun _ => false
  useful1 := fun _ => false
  totalPairsForBarcode := 0
  stats := initialStats
  writes := []
  assertFailed := false

/-- The read-buffering loop of the indexed path (lines 612-652).  Each
incoming pair is stored at slots `2*totalPairsForBarcode` and
`2*totalPairsForBarcode + 1`, but — exactly as the source does — the ID
check, the usefulness computation, the degenerate-path filter calls and
the degenerate-path write all inspect `reads[0]` and `reads[1]`, the
first buffer slots. -/
def bufferReads (opts : TenXAlignerOptions) (pf : PassFilter)
    (ignoreMismatchedIDs : Bool) (minReadLength maxDist : Int)
    (hasReadWriter : Bool) :
    List (Read × Read) → BufferState → BufferOutcome
  | [], st => .finished st
  | (r0, r1) :: rest, st =>
    let tot := st.totalPairsForBarcode
    -- getNextReadPair(&reads[tot * NUM_READS_PER_PAIR], &reads[tot * NUM_READS_PER_PAIR + 1])
    let rb : Nat → Read := fun i =>
      if i = 2 * tot then r0 else if i = 2 * tot + 1 then r1 else st.readsBuf i
    -- Read::checkIdMatch(reads[0], reads[1]) — always the first slots
    if !ignoreMismatchedIDs && !readIdsMatch (rb 0) (rb 1) then
      .exited 1 (rb 0).id (rb 1).id
    else
      let stats := { st.stats with totalReads := st.stats.totalReads + 2 }
      -- useful0[tot] / useful1[tot] computed from reads[0] / reads[1]
      let u0 := readIsUseful minReadLength maxDist (rb 0)
      let u1 := readIsUseful minReadLength maxDist (rb 1)
      let us0 : Nat → Bool := fun i => if i = tot then u0 else st.useful0 i
      let us1 : Nat → Bool := fun i => if i = tot then u1 else st.useful1 i
      if !u0 && !u1 then
        -- degenerate pair: emit unmapped without alignment, do not admit
        let pass0 := pf (rb 0) .NotFound true false
        let pass1 := pf (rb 1) .NotFound true false
        let pass := combinedPass opts.filterBothMatesMatch pass0 pass1
        if pass then
          let writes :=
            if hasReadWriter then st.writes ++ [degenerateUnmappedWrite (rb 0) (rb 1)]
            else st.writes
          bufferReads opts pf ignoreMismatchedIDs minReadLength maxDist hasReadWriter rest
            { st with readsBuf := rb, useful0 := us0, useful1 := us1,
                      stats := { stats with uselessReads := stats.uselessReads + 2 },
                      writes := writes }
        else
          bufferReads opts pf ignoreMismatchedIDs minReadLength maxDist hasReadWriter rest
            { st with readsBuf := rb, useful0 := us0, useful1 := us1,
                      stats := { stats with filtered := stats.filtered + 2 } }
      else
        bufferReads opts pf ignoreMismatchedIDs minReadLength maxDist hasReadWriter rest
          { st with readsBuf := rb, useful0 := us0, useful1 := us1,
                    totalPairsForBarcode := tot + 1, stats := stats,
                    assertFailed :=
                      st.assertFailed || decide (((tot : Int) + 1) > opts.maxBarcodeSize) }

/-- Per-pair secondary-buffer bookkeeping across the Stage 2 / Stage 3
retry loops: the parallel entries of `maxPairedSecondaryHits` and
`maxSingleSecondaryHits`, the allocated sizes (in elements) of
`results[pairIdx]` and `singleSecondaryResults[pairIdx]`, and the
`pairNotFinished` overflow flag. -/
structure SecondaryBuffers where
  maxPairedSecondaryHits : Int
  pairedBufSlots : Int
  maxSingleSecondaryHits : Int
  singleBufSlots : Int
  pairNotFinished : Bool
deriving DecidableEq, Repr

/-- The per-pair reallocation performed when `align_second_stage` reports
overflow (lines 675-683): for each pair in `[0, totalPairsForBarcode)`
with `pairNotFinished` set, free `results[pairIdx]`, double
`maxPairedSecondaryHits[pairIdx]`, and allocate a fresh buffer of
`maxPairedSecondaryHits[pairIdx] + 1` slots; other pairs are untouched.
The list holds the entries for the first `totalPairsForBarcode` pairs. -/
def resizeOverflowedPaired (st : List SecondaryBuffers) : List SecondaryBuffers :=
  st.map fun b =>
    if b.pairNotFinished then
      { b with maxPairedSecondaryHits := 2 * b.maxPairedSecondaryHits,
               pairedBufSlots := 2 * b.maxPairedSecondaryHits + 1 }
    else b

/-- The per-pair reallocation when `align_third_stage` reports overflow
(lines 692-699): double `maxSingleSecondaryHits[pairIdx]` and allocate a
fresh buffer of that many single-result slots. -/
def resizeOverflowedSingle (st : List SecondaryBuffers) : List SecondaryBuffers :=
  st.map fun b =>
    if b.pairNotFinished then
      { b with maxSingleSecondaryHits := 2 * b.maxSingleSecondaryHits,
               singleBufSlots := 2 * b.maxSingleSecondaryHits }
    else b

/-- The Stage 2 / Stage 3 retry loop skeleton (lines 670-684 and 688-701):
run the stage; if it returns `barcodeFinished` leave the loop; otherwise
resize the overflowed pairs and re-enter.  The stage function itself
(`align_second_stage` / `align_third_stage`, in another translation unit)
is abstracted as a parameter that returns the finished flag together with
the buffers as mutated by the stage (overflow flags and counts); `fuel`
bounds the iterations of the `while (true)` loop. -/
def alignStageLoop (stage : List SecondaryBuffers → Bool × List SecondaryBuffers)
    (resize : List SecondaryBuffers → List SecondaryBuffers) :
    Nat → List SecondaryBuffers → List SecondaryBuffers
  | 0, st => st
  | fuel + 1, st =>
    let out := stage st
    if out.1 then out.2
    else alignStageLoop stage resize fuel (resize out.2)

/-- The phases of `runIterationThread` after read buffering. -/
inductive WorkerPhase where
  | stage1
  | stage2
  | stage3
  | emission
  | canaryCheck
  | freeBuffers
  | destroyAligners
  | freeArena
deriving DecidableEq, Repr

/-- The control flow of `runIterationThread` after read buffering (lines
664-829), as the sequence of phases executed: Stage 1 runs; if it returns
`barcodeFinished` the worker executes `return` at line 667, skipping
Stages 2 and 3, result emission, the canary check, every `BigDealloc`,
the aligner destructors and the arena (`BigAllocator`) release; otherwise
all of them run in order. -/
def phasesAfterBuffering (stage1BarcodeFinished : Bool) : List WorkerPhase :=
  if stage1BarcodeFinished then
    [.stage1]
  else
    [.stage1, .stage2, .stage3, .emission, .canaryCheck, .freeBuffers,
     .destroyAligners, .freeArena]

/-- The `forceSpacing` demotion applied to each pair's primary result just
before emission (lines 726-730): if `forceSpacing` is set and exactly one
mate has a one-location status, both statuses become `NotFound` and both
locations `InvalidGenomeLocation`. -/
def applyForceSpacing (forceSpacing : Bool) (r : PairedAlignmentResult) :
    PairedAlignmentResult :=
  if forceSpacing && (isOneLocation r.status0 != isOneLocation r.status1) then
    { r with status0 := .NotFound, status1 := .NotFound,
             location0 := InvalidGenomeLocation, location1 := InvalidGenomeLocation }
  else r

/-- Read `base[p]` through the local `_int64* nSecondaryResults` after it
has been decremented `off` times: `ptr[p]` is `base[p - off]`.  A negative
index would be an out-of-bounds read (undefined behavior in the source);
the embedding returns 0 there, and the concrete runs below never reach
that case. -/
def nSecAt (base : List Int) (off : Nat) (p : Nat) : Int :=
  if off ≤ p then base.getD (p - off) 0 else 0

/-- Observable state of the result-emission loop: the per-pair
`results[pairIdx]` buffer contents, the accumulated decrements applied to
the `nSecondaryResults` pointer, the per-pair single-secondary buffers,
the `nSingleSecondaryResults` entries, and the writer calls issued. -/
structure EmitState where
  resultsBufs : List (List PairedAlignmentResult)
  nSecPtrOffset : Nat
  singleBufs : List (List SingleAlignmentResult)
  nSingle : List Int
  writes : List WriteCall
deriving Repr

/-- The per-pair read-filter loop over primary and secondary paired
results (lines 733-750).  `i` is the loop index, `buf` the
`results[pairIdx]` buffer, `off` the pointer decrements accumulated so
far, `fip` the `firstIsPrimary` flag.  On a failing record the source
copies `results[pairIdx][nSecondaryResults[pairIdx]]` over slot `i` and
then executes `nSecondaryResults--`, which decrements the local pointer
(not the entry), so every later read of `nSecondaryResults[...]` is
shifted down by one slot.  The `i--` at line 748 followed by the loop's
`i++` re-tests the same index, modelled by recursing with `i` unchanged;
`fuel` bounds the loop. -/
def pairedFilterLoop (pf : PassFilter) (filterBoth : Bool) (rd0 rd1 : Read)
    (u0 u1 : Bool) (nSecBase : List Int) (p : Nat)
    (junk : PairedAlignmentResult) :
    Nat → Nat → List PairedAlignmentResult → Nat → Bool →
    List PairedAlignmentResult × Nat × Bool
  | 0, _, buf, off, fip => (buf, off, fip)
  | fuel + 1, i, buf, off, fip =>
    if (i : Int) ≤ nSecAt nSecBase off p then
      let r := buf.getD i junk
      let pass0 := pf rd0 r.status0 (!u0) ((i != 0) || !fip)
      let pass1 := pf rd1 r.status1 (!u1) ((i != 0) || !fip)
      if combinedPass filterBoth pass0 pass1 then
        pairedFilterLoop pf filterBoth rd0 rd1 u0 u1 nSecBase p junk fuel (i + 1) buf off fip
      else
        let src := nSecAt nSecBase off p
        let buf' := buf.set i (buf.getD src.toNat junk)
        let fip' := if i = 0 then false else fip
        pairedFilterLoop pf filterBoth rd0 rd1 u0 u1 nSecBase p junk fuel i buf' (off + 1) fip'
    else
      (buf, off, fip)

/-- The single-secondary filter loop for one mate (lines 758-764):
compaction by copy-from-last, with a correctly indexed decrement of
`nSingleSecondaryResults[globalIdx]`. -/
def singleFilterLoop (pf : PassFilter) (rd : Read) (junk : SingleAlignmentResult) :
    Nat → Nat → List SingleAlignmentResult → Int →
    List SingleAlignmentResult × Int
  | 0, _, buf, cnt => (buf, cnt)
  | fuel + 1, i, buf, cnt =>
    if (i : Int) < cnt then
      let r := buf.getD i junk
      if pf rd r.status false true then
        singleFilterLoop pf rd junk fuel (i + 1) buf cnt
      else
        let buf' := buf.set i (buf.getD (cnt - 1).toNat junk)
        singleFilterLoop pf rd junk fuel i buf' (cnt - 1)
    else
      (buf, cnt)

/-- Result emission for one pair (lines 716-769; the statistics updates at
lines 771-784 are outside the scope of the claims): apply the
`forceSpacing` demotion to the primary, run the paired filter loop, run
the two single filter loops over the two regions of the pair's single
buffer (the second region's base pointer is computed from
`nSingleSecondaryResults[2*pairIdx]` before any filtering), and issue
`writePairs(..., results[pairIdx], nSecondaryResults[pairIdx] + 1, ...,
firstIsPrimary)` with the count read through the decremented pointer. -/
def emitOnePair (pf : PassFilter) (filterBoth forceSpacing hasReadWriter : Bool)
    (readsBuf : Nat → Read) (useful0 useful1 : Nat → Bool) (nSecBase : List Int)
    (junkP : PairedAlignmentResult) (junkS : SingleAlignmentResult) (fuel : Nat)
    (st : EmitState) (p : Nat) : EmitState :=
  let rd0 := readsBuf (2 * p)
  let rd1 := readsBuf (2 * p + 1)
  let buf0 := st.resultsBufs.getD p []
  let buf1 := buf0.set 0 (applyForceSpacing forceSpacing (buf0.getD 0 junkP))
  let flt := pairedFilterLoop pf filterBoth rd0 rd1 (useful0 p) (useful1 p)
      nSecBase p junkP fuel 0 buf1 st.nSecPtrOffset true
  let bufF := flt.1
  let offF := flt.2.1
  let fip := flt.2.2
  let sbuf := st.singleBufs.getD p []
  let n0 := st.nSingle.getD (2 * p) 0
  let n1 := st.nSingle.getD (2 * p + 1) 0
  let reg1Base := n0.toNat
  let flt0 := singleFilterLoop pf rd0 junkS fuel 0 sbuf n0
  let flt1 := singleFilterLoop pf rd1 junkS fuel 0 (flt0.1.drop reg1Base) n1
  let sbufF := flt0.1.take reg1Base ++ flt1.1
  let n0F := flt0.2
  let n1F := flt1.2
  let nResults := nSecAt nSecBase offF p + 1
  let call : WriteCall :=
    { read0 := rd0, read1 := rd1,
      records := bufF.take nResults.toNat, nResults := nResults,
      singles0 := flt0.1.take n0F.toNat, singles1 := flt1.1.take n1F.toNat,
      nSingle0 := n0F, nSingle1 := n1F, firstIsPrimary := fip }
  { resultsBufs := st.resultsBufs.set p bufF,
    nSecPtrOffset := offF,
    singleBufs := st.singleBufs.set p sbufF,
    nSingle := (st.nSingle.set (2 * p) n0F).set (2 * p + 1) n1F,
    writes := if hasReadWriter then st.writes ++ [call] else st.writes }

/-- The emission loop over all pairs of the barcode (lines 716-785), in
input order. -/
def emitResults (pf : PassFilter) (filterBoth forceSpacing hasReadWriter : Bool)
    (readsBuf : Nat → Read) (useful0 useful1 : Nat → Bool) (nSecBase : List Int)
    (junkP : PairedAlignmentResult) (junkS : SingleAlignmentResult) (fuel : Nat)
    (totalPairsForBarcode : Nat) (st : EmitState) : EmitState :=
  (List.range totalPairsForBarcode).foldl
    (emitOnePair pf filterBoth forceSpacing hasReadWriter readsBuf useful0 useful1
      nSecBase junkP junkS fuel) st

/-! Outcome projections used to state concrete facts about loop runs. -/

def noIndexOutcomeWrites : NoIndexOutcome → Option (List WriteCall)
  | .finished st => some st.writes
  | .exited _ _ _ => none

def bufferOutcomeWrites : BufferOutcome → Option (List WriteCall)
  | .finished st => some st.writes
  | .exited _ _ _ => none

def bufferOutcomeTotalPairs : BufferOutcome → Option Nat
  | .finished st => some st.totalPairsForBarcode
  | .exited _ _ _ => none

def bufferOutcomeUselessReads : BufferOutcome → Option Nat
  | .finished st => some st.stats.uselessReads
  | .exited _ _ _ => none

def bufferOutcomeAssertFailed : BufferOutcome → Option Bool
  | .finished st => some st.assertFailed
  | .exited _ _ _ => none

def bufferOutcomeExited : BufferOutcome → Bool
  | .finished _ => false
  | .exited _ _ _ => true

/-! Concrete fixtures used by the counterexample and witness runs. -/

/-- A filter predicate passing every record (the behavior of
`passFilter` when no `-F` criteria are configured). -/
def passAll : PassFilter := fun _ _ _ _ => true

/-- A filter predicate rejecting records whose status is `MultipleHits`. -/
def passNotMultiple : PassFilter := fun _ st _ _ => st != .MultipleHits

def junkRead : Read := { id := "", dataLength := 0, countOfNs := 0 }

def c1read00 : Read := { id := "pA/1", dataLength := 100, countOfNs := 0 }
def c1read01 : Read := { id := "pA/2", dataLength := 100, countOfNs := 0 }
def c1read10 : Read := { id := "pB/1", dataLength := 100, countOfNs := 0 }
def c1read11 : Read := { id := "pB/2", dataLength := 100, countOfNs := 0 }

def c1readsBuf : Nat → Read := fun i =>
  if i = 0 then c1read00 else if i = 1 then c1read01
  else if i = 2 then c1read10 else c1read11

def c1okA : PairedAlignmentResult :=
  { status0 := .SingleHit, status1 := .SingleHit, location0 := .loc 100,
    location1 := .loc 400, clippingForReadAdjustment0 := 0, clippingForReadAdjustment1 := 0 }

def c1okB0 : PairedAlignmentResult :=
  { status0 := .SingleHit, status1 := .SingleHit, location0 := .loc 1000,
    location1 := .loc 1300, clippingForReadAdjustment0 := 0, clippingForReadAdjustment1 := 0 }

def c1bad : PairedAlignmentResult :=
  { status0 := .MultipleHits, status1 := .MultipleHits, location0 := .loc 2000,
    location1 := .loc 2300, clippingForReadAdjustment0 := 0, clippingForReadAdjustment1 := 0 }

def c1okB2 : PairedAlignmentResult :=
  { status0 := .SingleHit, status1 := .SingleHit, location0 := .loc 3000,
    location1 := .loc 3300, clippingForReadAdjustment0 := 0, clippingForReadAdjustment1 := 0 }

def c1junkP : PairedAlignmentResult :=
  { status0 := .NotFound, status1 := .NotFound, location0 := .invalid,
    location1 := .invalid, clippingForReadAdjustment0 := 0, clippingForReadAdjustment1 := 0 }

def c1junkS : SingleAlignmentResult := { status := .NotFound }

/-- Emission input with two pairs: pair 0 has only a primary
(`nSecondaryResults[0] = 0`), pair 1 has a primary and two secondaries
(`nSecondaryResults[1] = 2`) of which the middle record fails the read
filter. -/
def c1InitState : EmitState :=
  { resultsBufs := [[c1okA], [c1okB0, c1bad, c1okB2]], nSecPtrOffset := 0,
    singleBufs := [[], []], nSingle := [0, 0, 0, 0], writes := [] }

/-- The emission run on `c1InitState` with the default `MatchEither`
filter policy, `forceSpacing` off and a writer present. -/
def c1Final : EmitState :=
  emitResults passNotMultiple false false true c1readsBuf (fun _ => true) (fun _ => true)
    [0, 2] c1junkP c1junkS 16 2 c1InitState

/-- The number of pair-1 records that survive the read filter (the primary
and the second secondary pass; the first secondary fails). -/
def c1survivors : Nat :=
  ((c1InitState.resultsBufs.getD 1 []).filter
    (fun r => combinedPass false (passNotMultiple c1read10 r.status0 false false)
      (passNotMultiple c1read11 r.status1 false false))).length

def c5good0 : Read := { id := "g/1", dataLength := 100, countOfNs := 0 }
def c5good1 : Read := { id := "g/2", dataLength := 100, countOfNs := 0 }
def c5bad0 : Read := { id := "x/1", dataLength := 5, countOfNs := 0 }
def c5bad1 : Read := { id := "x/2", dataLength := 5, countOfNs := 0 }

/-- Buffering run for the usefulness claim: a useful pair followed by a
pair whose two reads are both shorter than `minReadLength = 50`. -/
def c5run : BufferOutcome :=
  bufferReads defaultTenXAlignerOptions passAll false 50 14 true
    [(c5good0, c5good1), (c5bad0, c5bad1)] (initialBufferState junkRead)

def c7m0 : Read := { id := "foo/1", dataLength := 100, countOfNs := 0 }
def c7m1 : Read := { id := "foo/2", dataLength := 100, countOfNs := 0 }
def c7q0 : Read := { id := "abc/1", dataLength := 100, countOfNs := 0 }
def c7q1 : Read := { id := "xyz/2", dataLength := 100, countOfNs := 0 }

/-- Buffering run for the ID-check claim: a matching pair followed by a
pair with mismatched IDs, with `ignoreMismatchedIDs = false`. -/
def c7run : BufferOutcome :=
  bufferReads defaultTenXAlignerOptions passAll false 50 14 true
    [(c7m0, c7m1), (c7q0, c7q1)] (initialBufferState junkRead)

/-- The options produced by `-maxBar 1`. -/
def c9opts : TenXAlignerOptions := { defaultTenXAlignerOptions with maxBarcodeSize := 1 }

/-- Buffering run for the batch-bound claim: `maxBarcodeSize = 1` and two
useful pairs supplied. -/
def c9run : BufferOutcome :=
  bufferReads c9opts passAll true 50 14 true
    [(c5good0, c5good1), (c7m0, c7m1)] (initialBufferState junkRead)

def c4flagged : SecondaryBuffers :=
  { maxPairedSecondaryHits := 32, pairedBufSlots := 33,
    maxSingleSecondaryHits := 32, singleBufSlots := 32, pairNotFinished := true }

def c4done : SecondaryBuffers :=
  { maxPairedSecondaryHits := 32, pairedBufSlots := 33,
    maxSingleSecondaryHits := 32, singleBufSlots := 32, pairNotFinished := false }

/-- A stage outcome reporting the barcode finished (no overflow). -/
def c4stageDone : List SecondaryBuffers → Bool × List SecondaryBuffers := fun s => (true, s)

/-- A stage outcome reporting an overflow somewhere. -/
def c4stageOverflow : List SecondaryBuffers → Bool × List SecondaryBuffers := fun s => (false, s)

def c6half : PairedAlignmentResult :=
  { status0 := .SingleHit, status1 := .NotFound, location0 := .loc 7,
    location1 := .invalid, clippingForReadAdjustment0 := 0, clippingForReadAdjustment1 := 0 }

/-! Helper lemmas. -/

lemma containsDashFb_cons (x : String) (l : List String) (h : containsDashFb l = true) :
    containsDashFb (x :: l) = true := by
  simp [containsDashFb, h]

/-- Parsing an argument list never sets the `FilterBothMatesMatch` bit
unless the adjacent tokens `-F` `b` occur in the list. -/
lemma parse_flag_unset (o : TenXAlignerOptions) (args : List String) :
    ∀ o', parseTenXOptions o args = some o' → o.filterBothMatesMatch = false →
      o'.filterBothMatesMatch = true → containsDashFb args = true := by
  induction o, args using parseTenXOptions.induct <;>
    intro o' hp ho hf <;>
    simp only [parseTenXOptions] at hp
  case case1 =>
    cases hp
    rw [hf] at ho
    cases ho
  case case2 =>
    rename_i ih
    exact containsDashFb_cons _ _ (containsDashFb_cons _ _ (containsDashFb_cons _ _
      (ih o' hp ho hf)))
  case case3 =>
    rename_i ih
    exact containsDashFb_cons _ _ (containsDashFb_cons _ _ (ih o' hp ho hf))
  case case4 =>
    rename_i ih
    exact containsDashFb_cons _ _ (ih o' hp ho hf)
  case case5 =>
    rename_i ih
    exact containsDashFb_cons _ _ (ih o' hp ho hf)
  case case6 =>
    rename_i ih
    exact containsDashFb_cons _ _ (containsDashFb_cons _ _ (ih o' hp ho hf))
  case case7 =>
    simp [containsDashFb]
  case case8 =>
    rename_i ih
    exact containsDashFb_cons _ _ (containsDashFb_cons _ _ (ih o' hp ho hf))
  case case9 =>
    rename_i ih
    exact containsDashFb_cons _ _ (containsDashFb_cons _ _ (ih o' hp ho hf))
  case case10 =>
    rename_i ih
    exact containsDashFb_cons _ _ (containsDashFb_cons _ _ (ih o' hp ho hf))
  case case11 => exact Option.noConfusion hp
  case case12 => exact Option.noConfusion hp
  case case13 => exact Option.noConfusion hp
  case case14 => exact Option.noConfusion hp
  case case15 => exact Option.noConfusion hp
  case case16 => exact Option.noConfusion hp
  case case17 => exact Option.noConfusion hp
  case case18 =>
    rename_i ih
    exact containsDashFb_cons _ _ (ih o' hp ho hf)

/-! Claim theorems. -/

/-- Claim C1.  Counterexample evaluation: in the emission filter loop, the
source executes `nSecondaryResults--` on the local pointer instead of
decrementing `nSecondaryResults[pairIdx]`.  On a two-pair barcode where
pair 1 holds a primary and two secondaries and only its middle record
fails the read filter, two records survive but the writer is handed
`nSecondaryResults[1] + 1 = 1` result (the surviving second secondary is
lost), and the pointer ends up permanently shifted by one. -/
theorem pointer_decrement_breaks_writer_count :
    c1Final.writes.map (fun w => (w.nResults, w.records.length, w.firstIsPrimary))
        = [(1, 1, true), (1, 1, true)]
    ∧ c1survivors = 2
    ∧ c1Final.nSecPtrOffset = 1 := by
  decide

/-- Claim C2.  When `align_first_stage` reports the barcode finished, the
worker returns at line 667 without running Stages 2 and 3, without
emitting any result, and without freeing the buffers, destroying the
aligners or releasing the arena; on the other branch all phases run. -/
theorem stage1_shortCircuit_skips_emission_and_cleanup :
    phasesAfterBuffering true = [WorkerPhase.stage1]
    ∧ WorkerPhase.emission ∉ phasesAfterBuffering true
    ∧ WorkerPhase.freeBuffers ∉ phasesAfterBuffering true
    ∧ WorkerPhase.freeArena ∉ phasesAfterBuffering true
    ∧ WorkerPhase.emission ∈ phasesAfterBuffering false
    ∧ WorkerPhase.freeArena ∈ phasesAfterBuffering false := by
  decide

/-- Claim C3.  Counterexample evaluation: parsing `-maxClusterSpan 5` from
the defaults leaves `maxClusterSpan` at its default 100000 and instead
sets `minPairsPerCluster` to 5. -/
theorem maxClusterSpan_option_sets_minPairsPerCluster :
    (parseTenXOptions defaultTenXAlignerOptions ["-maxClusterSpan", "5"]).map
        (fun o => (o.maxClusterSpan, o.minPairsPerCluster))
      = some ((100000 : Int), (5 : Int))
    ∧ defaultTenXAlignerOptions.minPairsPerCluster = 10 := by
  decide

/-- Claim C4.  The Stage 2 / Stage 3 retry loops exit without resizing as
soon as the stage reports the barcode finished, re-enter the stage after
resizing otherwise, and the resize doubles the secondary capacity and
allocates a fresh buffer of the new capacity (plus one slot for the
paired primary in Stage 2) for exactly the pairs flagged
`pairNotFinished`, leaving every other pair's capacity and buffer
untouched. -/
theorem stage_retry_doubles_only_overflowed
    (st stA stB : List SecondaryBuffers) (i : Nat) (b : SecondaryBuffers)
    (stageA stageB : List SecondaryBuffers → Bool × List SecondaryBuffers) (fuel : Nat)
    (hb : st[i]? = some b)
    (hA : stageA st = (true, stA))
    (hB : stageB st = (false, stB)) :
    alignStageLoop stageA resizeOverflowedPaired (fuel + 1) st = stA
    ∧ alignStageLoop stageB resizeOverflowedPaired (fuel + 1) st
        = alignStageLoop stageB resizeOverflowedPaired fuel (resizeOverflowedPaired stB)
    ∧ alignStageLoop stageA resizeOverflowedSingle (fuel + 1) st = stA
    ∧ alignStageLoop stageB resizeOverflowedSingle (fuel + 1) st
        = alignStageLoop stageB resizeOverflowedSingle fuel (resizeOverflowedSingle stB)
    ∧ (resizeOverflowedPaired st)[i]? = some
        (if b.pairNotFinished then
          { b with maxPairedSecondaryHits := 2 * b.maxPairedSecondaryHits,
                   pairedBufSlots := 2 * b.maxPairedSecondaryHits + 1 }
         else b)
    ∧ (resizeOverflowedSingle st)[i]? = some
        (if b.pairNotFinished then
          { b with maxSingleSecondaryHits := 2 * b.maxSingleSecondaryHits,
                   singleBufSlots := 2 * b.maxSingleSecondaryHits }
         else b) := by
  refine ⟨?_, ?_, ?_, ?_, ?_, ?_⟩
  · simp [alignStageLoop, hA]
  · simp [alignStageLoop, hB]
  · simp [alignStageLoop, hA]
  · simp [alignStageLoop, hB]
  · simp [resizeOverflowedPaired, List.getElem?_map, hb]
  · simp [resizeOverflowedSingle, List.getElem?_map, hb]

/-- Witness for claim C4, at a two-pair state with pair 0 flagged and
pair 1 finished. -/
theorem stage_retry_doubles_only_overflowed_witness :
    alignStageLoop c4stageDone resizeOverflowedPaired (0 + 1) [c4flagged, c4done]
        = [c4flagged, c4done]
    ∧ alignStageLoop c4stageOverflow resizeOverflowedPaired (0 + 1) [c4flagged, c4done]
        = alignStageLoop c4stageOverflow resizeOverflowedPaired 0
            (resizeOverflowedPaired [c4flagged, c4done])
    ∧ alignStageLoop c4stageDone resizeOverflowedSingle (0 + 1) [c4flagged, c4done]
        = [c4flagged, c4done]
    ∧ alignStageLoop c4stageOverflow resizeOverflowedSingle (0 + 1) [c4flagged, c4done]
        = alignStageLoop c4stageOverflow resizeOverflowedSingle 0
            (resizeOverflowedSingle [c4flagged, c4done])
    ∧ (resizeOverflowedPaired [c4flagged, c4done])[0]? = some
        (if c4flagged.pairNotFinished then
          { c4flagged with maxPairedSecondaryHits := 2 * c4flagged.maxPairedSecondaryHits,
                           pairedBufSlots := 2 * c4flagged.maxPairedSecondaryHits + 1 }
         else c4flagged)
    ∧ (resizeOverflowedSingle [c4flagged, c4done])[0]? = some
        (if c4flagged.pairNotFinished then
          { c4flagged with maxSingleSecondaryHits := 2 * c4flagged.maxSingleSecondaryHits,
                           singleBufSlots := 2 * c4flagged.maxSingleSecondaryHits }
         else c4flagged) :=
  stage_retry_doubles_only_overflowed [c4flagged, c4done] [c4flagged, c4done]
    [c4flagged, c4done] 0 c4flagged c4stageDone c4stageOverflow 0 rfl rfl rfl

/-- Claim C5.  Counterexample evaluation: the buffering loop computes the
usefulness of each incoming pair from `reads[0]` and `reads[1]` — the
first buffered pair — instead of the pair just stored.  After a useful
pair is admitted, a second pair whose two reads are both shorter than
`minReadLength` is admitted to the batch anyway (totalPairsForBarcode
becomes 2), no unmapped record is written for it, and `uselessReads`
stays 0. -/
theorem degenerate_pair_admitted_from_stale_reads :
    readIsUseful 50 14 c5bad0 = false
    ∧ readIsUseful 50 14 c5bad1 = false
    ∧ bufferOutcomeTotalPairs c5run = some 2
    ∧ bufferOutcomeWrites c5run = some []
    ∧ bufferOutcomeUselessReads c5run = some 0 := by
  decide

/-- Claim C6.  The `forceSpacing` demotion: when enabled and exactly one
mate has a one-location status, both statuses become `NotFound` and both
locations `InvalidGenomeLocation`; when disabled, or when the two mates
agree on `isOneLocation`, the result is unchanged. -/
theorem forceSpacing_demotion_policy (fs : Bool) (r : PairedAlignmentResult) :
    (fs = true → isOneLocation r.status0 ≠ isOneLocation r.status1 →
      applyForceSpacing fs r =
        { r with status0 := .NotFound, status1 := .NotFound,
                 location0 := InvalidGenomeLocation, location1 := InvalidGenomeLocation })
    ∧ (fs = false → applyForceSpacing fs r = r)
    ∧ (isOneLocation r.status0 = isOneLocation r.status1 → applyForceSpacing fs r = r) := by
  refine ⟨?_, ?_, ?_⟩
  · intro h1 h2
    subst h1
    simp [applyForceSpacing, bne_iff_ne, h2]
  · intro h1
    subst h1
    simp [applyForceSpacing]
  · intro h
    simp [applyForceSpacing, h]

/-- Witness for claim C6, at a half-mapped result (`SingleHit` /
`NotFound`). -/
theorem forceSpacing_demotion_policy_witness :
    applyForceSpacing true c6half =
      { c6half with status0 := .NotFound, status1 := .NotFound,
                    location0 := InvalidGenomeLocation, location1 := InvalidGenomeLocation }
    ∧ applyForceSpacing false c6half = c6half :=
  ⟨(forceSpacing_demotion_policy true c6half).1 rfl (by decide),
   (forceSpacing_demotion_policy false c6half).2.1 rfl⟩

/-- Claim C7.  Counterexample evaluation: in the indexed path the ID check
calls `Read::checkIdMatch(reads[0], reads[1])`, i.e. the first buffered
pair, not the pair just read.  With `ignoreMismatchedIDs = false`, a
matching first pair followed by the mismatched pair `abc/1` / `xyz/2` does
not terminate the program: the loop finishes normally and admits both
pairs. -/
theorem mismatched_ids_unchecked_for_later_pairs :
    readIdsMatch c7q0 c7q1 = false
    ∧ bufferOutcomeExited c7run = false
    ∧ bufferOutcomeTotalPairs c7run = some 2 := by
  decide

/-- Claim C8.  The pair filter decision equals the spec's policy — both
mates must pass under `FilterBothMatesMatch`, at least one otherwise —
the flag is clear by default, and a parse run can only set it when the
adjacent tokens `-F` `b` occur on the command line. -/
theorem filter_policy_and_flag_selection
    (b pass0 pass1 : Bool) (o o' : TenXAlignerOptions) (args : List String)
    (hp : parseTenXOptions o args = some o') :
    (combinedPass b pass0 pass1 = true ↔ specFilterPolicyHolds b pass0 pass1)
    ∧ defaultTenXAlignerOptions.filterBothMatesMatch = false
    ∧ (o.filterBothMatesMatch = false → o'.filterBothMatesMatch = true →
        containsDashFb args = true) := by
  refine ⟨?_, rfl, fun ho hf => parse_flag_unset o args o' hp ho hf⟩
  cases b <;> cases pass0 <;> cases pass1 <;> simp [combinedPass, specFilterPolicyHolds]

/-- Witness for claim C8: the command line `-F b` from the defaults. -/
theorem filter_policy_and_flag_selection_witness :
    (combinedPass true true false = true ↔ specFilterPolicyHolds true true false)
    ∧ defaultTenXAlignerOptions.filterBothMatesMatch = false
    ∧ containsDashFb ["-F", "b"] = true :=
  have h := filter_policy_and_flag_selection true true false defaultTenXAlignerOptions
    { defaultTenXAlignerOptions with filterBothMatesMatch := true } ["-F", "b"] (by rfl)
  ⟨h.1, h.2.1, h.2.2 rfl rfl⟩

/-- Claim C9.  Counterexample evaluation: the buffering loop enforces no
bound on `totalPairsForBarcode` — only the debug
`_ASSERT(totalPairsForBarcode <= maxBarcodeSize)` states one.  With
`maxBarcodeSize = 1` (obtained from `-maxBar 1`) and two useful pairs
supplied, both are admitted and the assert's condition is violated. -/
theorem barcode_size_bound_not_enforced :
    parseTenXOptions defaultTenXAlignerOptions ["-maxBar", "1"] = some c9opts
    ∧ c9opts.maxBarcodeSize = 1
    ∧ bufferOutcomeTotalPairs c9run = some 2
    ∧ bufferOutcomeAssertFailed c9run = some true := by
  decide

/-- Claim C10.  Every pair emitted as unmapped without alignment — in the
no-index fast path and in the degenerate both-mates-unuseful path — is
handed to the writer as exactly one paired result with both statuses
`NotFound`, both locations `InvalidGenomeLocation`, zero single-end
secondary results and `firstIsPrimary = true`. -/
theorem unmapped_write_record_shape
    (opts : TenXAlignerOptions) (pf : PassFilter) (mrl md : Int) (r0 r1 junk : Read)
    (hu0 : readIsUseful mrl md r0 = false)
    (hu1 : readIsUseful mrl md r1 = false)
    (hpassN : combinedPass opts.filterBothMatesMatch
        (pf r0 .NotFound (readIsUseful mrl md r0) false)
        (pf r1 .NotFound (readIsUseful mrl md r1) false) = true)
    (hpassD : combinedPass opts.filterBothMatesMatch
        (pf r0 .NotFound true false) (pf r1 .NotFound true false) = true) :
    noIndexOutcomeWrites (noIndexLoop opts pf true mrl md true [(r0, r1)]
        { stats := initialStats, writes := [] }) = some [noIndexUnmappedWrite r0 r1]
    ∧ bufferOutcomeWrites (bufferReads opts pf true mrl md true [(r0, r1)]
        (initialBufferState junk)) = some [degenerateUnmappedWrite r0 r1]
    ∧ bufferOutcomeTotalPairs (bufferReads opts pf true mrl md true [(r0, r1)]
        (initialBufferState junk)) = some 0
    ∧ (noIndexUnmappedWrite r0 r1).nResults = 1
    ∧ (noIndexUnmappedWrite r0 r1).records = [unmappedResultNoIndex]
    ∧ unmappedResultNoIndex.status0 = .NotFound
    ∧ unmappedResultNoIndex.status1 = .NotFound
    ∧ unmappedResultNoIndex.location0 = InvalidGenomeLocation
    ∧ unmappedResultNoIndex.location1 = InvalidGenomeLocation
    ∧ (noIndexUnmappedWrite r0 r1).nSingle0 = 0
    ∧ (noIndexUnmappedWrite r0 r1).nSingle1 = 0
    ∧ (noIndexUnmappedWrite r0 r1).firstIsPrimary = true
    ∧ (degenerateUnmappedWrite r0 r1).nResults = 1
    ∧ (degenerateUnmappedWrite r0 r1).records = [unmappedResultDegenerate]
    ∧ unmappedResultDegenerate.status0 = .NotFound
    ∧ unmappedResultDegenerate.status1 = .NotFound
    ∧ unmappedResultDegenerate.location0 = InvalidGenomeLocation
    ∧ unmappedResultDegenerate.location1 = InvalidGenomeLocation
    ∧ (degenerateUnmappedWrite r0 r1).nSingle0 = 0
    ∧ (degenerateUnmappedWrite r0 r1).nSingle1 = 0
    ∧ (degenerateUnmappedWrite r0 r1).firstIsPrimary = true := by
  refine ⟨?_, ?_, ?_, rfl, rfl, rfl, rfl, rfl, rfl, rfl, rfl, rfl, rfl, rfl, rfl, rfl,
    rfl, rfl, rfl, rfl, rfl⟩
  · simp [noIndexLoop, hpassN, noIndexOutcomeWrites, initialStats]
  · simp [bufferReads, hu0, hu1, hpassD, bufferOutcomeWrites, initialBufferState,
      initialStats]
  · simp [bufferReads, hu0, hu1, hpassD, bufferOutcomeTotalPairs, initialBufferState,
      initialStats]

/-- Witness for claim C10, on the pair `x/1` / `x/2` whose reads are both
below the minimum length, with a pass-everything filter. -/
theorem unmapped_write_record_shape_witness :
    noIndexOutcomeWrites (noIndexLoop defaultTenXAlignerOptions passAll true 50 14 true
        [(c5bad0, c5bad1)] { stats := initialStats, writes := [] })
      = some [noIndexUnmappedWrite c5bad0 c5bad1]
    ∧ bufferOutcomeWrites (bufferReads defaultTenXAlignerOptions passAll true 50 14 true
        [(c5bad0, c5bad1)] (initialBufferState junkRead))
      = some [degenerateUnmappedWrite c5bad0 c5bad1]
    ∧ (noIndexUnmappedWrite c5bad0 c5bad1).nResults = 1
    ∧ (degenerateUnmappedWrite c5bad0 c5bad1).firstIsPrimary = true :=
  have h := unmapped_write_record_shape defaultTenXAlignerOptions passAll 50 14
    c5bad0 c5bad1 junkRead (by decide) (by decide) (by decide) (by decide)
  ⟨h.1, h.2.1, h.2.2.2.1, h.2.2.2.2.2.2.2.2.2.2.2.2.2.2.2.2.2.2.2.2⟩
